import Mathlib

/-!
Shallow embedding of the AgriBot-AI query-orchestration pipeline and proofs
about it, covering:

* `src/Backend/app/services/ai_agents.py`  (`AIAgentService`)
* `src/Frontend/src/agents/cordinates.py`  (`AgentCoordinator`)
* `src/Frontend/src/utils/query_handler.py` (session store and routes)

Python floats carrying confidence values are modelled as `Rat` (the claims
only concern equalities and order comparisons of values the code passes
around or hard-codes).  Python dicts with possibly-absent keys are modelled
as structures with `Option` fields (`none` = key absent); `d.get(k, v)`
becomes `Option.getD`.  External collaborators (the LLM, the translator, the
embedding model, the knowledge base, the agents themselves) are passed in as
explicit oracle parameters, as the code treats them as black boxes that may
raise; a raised Python exception is `Except.error`.
-/

namespace AgriBot

/-- The four agent categories of the backend service
(`AIAgentService.agents` keys, in insertion order). -/
inductive AgentType where
  | weather
  | crop
  | financial
  | policy
  deriving DecidableEq, Repr, Fintype

open AgentType

/-- Insertion order of `self.agents` / `self.agent_keywords` in
`AIAgentService.__init__`: weather, crop, financial, policy.  Python dict
iteration follows this order, which is what makes classification ties
deterministic. -/
def agentOrder : List AgentType := [weather, crop, financial, policy]

/-- Position of a category in `agentOrder` (used to state tie-breaking). -/
def agentIdx : AgentType → Nat
  | weather => 0
  | crop => 1
  | financial => 2
  | policy => 3

/-- The dict-key string of each category. -/
def agentTypeName : AgentType → String
  | weather => "weather"
  | crop => "crop"
  | financial => "financial"
  | policy => "policy"

/-- Character-list version of `str.startswith`: does the second list start
with the first? -/
def startsWithChars : List Char → List Char → Bool
  | [], _ => true
  | _ :: _, [] => false
  | a :: as, b :: bs => a == b && startsWithChars as bs

/-- Python's `kw in s` substring test on character lists. -/
def hasSubChars (kw : List Char) : List Char → Bool
  | [] => startsWithChars kw []
  | c :: rest => startsWithChars kw (c :: rest) || hasSubChars kw rest

/-- `str.lower()` as used on the query in `_classify_query`
(per-character lowering). -/
def strLower (s : String) : String := String.mk (s.toList.map Char.toLower)

/-- Python `kw in query_lower` on strings. -/
def strHasSub (kw s : String) : Bool := hasSubChars kw.toList s.toList

/-- `AIAgentService.agent_keywords`, verbatim from the source. -/
def agentKeywords : AgentType → List String
  | weather =>
      ["weather", "rain", "temperature", "humidity", "climate",
       "monsoon", "drought", "frost", "मौसम", "बारिश", "तापमान"]
  | crop =>
      ["crop", "seed", "variety", "planting", "harvest", "pest",
       "disease", "fertilizer", "फसल", "बीज", "खाद"]
  | financial =>
      ["loan", "credit", "insurance", "subsidy", "price", "market",
       "cost", "profit", "ऋण", "बीमा", "सब्सिडी", "कीमत"]
  | policy =>
      ["scheme", "policy", "government", "yojana", "PM-KISAN",
       "registration", "application", "योजना", "सरकार", "आवेदन"]

/-- `score = sum(1 for keyword in keywords if keyword in query_lower)` for
one category, with `q` the already-lowercased query. -/
def keywordScore (t : AgentType) (q : String) : Nat :=
  (agentKeywords t).countP (fun kw => strHasSub kw q)

/-- Python's `max(scores, key=scores.get)` over the candidate list in
iteration order: keep the current element unless a later one is strictly
greater. -/
def maxByFirst (f : AgentType → Nat) (x : AgentType) (l : List AgentType) : AgentType :=
  l.foldl (fun best c => if f best < f c then c else best) x

/-- The semantic-similarity fallback of `_classify_query`: `best_match`
starts at `'crop'`, `best_score` at `0.0`, and each category (in
`agent_descriptions` insertion order = `agentOrder`) replaces the best only
on a strictly greater similarity.  The external embedding model is the
oracle `sim`. -/
def semanticFallback (sim : AgentType → Rat) : AgentType :=
  (agentOrder.foldl
    (fun (acc : AgentType × Rat) t => if acc.2 < sim t then (t, sim t) else acc)
    (crop, 0)).1

/-- The keyword tier of `_classify_query`: the `scores` dict holds the
categories with positive score in `agentOrder` insertion order;
`if scores: return max(scores, key=scores.get)` is the first maximum, and
an empty dict falls through (`none`). -/
def keywordPick (s : AgentType → Nat) : Option AgentType :=
  match agentOrder.filter (fun t => 0 < s t) with
  | [] => none
  | t :: ts => some (maxByFirst s t ts)

/-- `AIAgentService._classify_query`: keyword scoring with first-maximum
selection, falling back to semantic similarity when no keyword scores. -/
def classifyQuery (query : String) (sim : AgentType → Rat) : AgentType :=
  match keywordPick (fun t => keywordScore t (strLower query)) with
  | some t => t
  | none => semanticFallback sim

/-! ## Frontend coordinator: agent responses and synthesis
(`src/Frontend/src/agents/cordinates.py`) -/

/-- A frontend agent response dict.  Success dicts have whatever keys the
agent produced (all read back with `.get`); the `_call_*` wrappers turn a
raised exception into `{"error": str(e), "agent": name}`. -/
structure FrontAgentResp where
  answer : Option String := none
  confidence : Option Rat := none
  sources : Option (List String) := none
  recommendations : Option (List String) := none
  error : Option String := none
  agent : Option String := none
  deriving DecidableEq, Repr

/-- A parsed JSON object returned by the synthesis LLM call (the keys the
prompt requests). -/
structure SynthLLMOut where
  answer : String
  confidence : Rat
  key_recommendations : List String
  sources : List String
  caveats : List String
  follow_up_questions : List String
  deriving DecidableEq, Repr

/-- The dict `_synthesize_responses` returns (the `synthesis_timestamp`
metadata key is wall-clock time, outside the model).  `agents_consulted`
is set only on the LLM-success branch, hence `Option`. -/
structure SynthResult where
  answer : String
  confidence : Rat
  sources : List String
  key_recommendations : List String
  caveats : List String
  follow_up_questions : List String
  agents_consulted : Option (List String)
  deriving DecidableEq, Repr

/-- `priority = ['crop_advisor', 'weather_agent', 'finance_agent',
'pest_disease_agent']` in `_get_best_agent_response`, verbatim. -/
def codePriority : List String :=
  ["crop_advisor", "weather_agent", "finance_agent", "pest_disease_agent"]

/-- Key lookup in the `agent_responses` dict (a Python dict modelled as an
insertion-ordered association list with distinct keys). -/
def lookupResp (m : List (String × FrontAgentResp)) (k : String) : Option FrontAgentResp :=
  (m.find? (fun p => p.1 == k)).map (fun p => p.2)

/-- The literal dict `{"answer": "No valid response available",
"confidence": 0.0}` returned when no agent response is usable. -/
def noValidResponse : FrontAgentResp :=
  { answer := some "No valid response available", confidence := some 0 }

/-- The first loop of `_get_best_agent_response`:
`for agent in priority: if agent in agent_responses and 'error' not in
agent_responses[agent]: return agent_responses[agent]`. -/
def bestByPriority (m : List (String × FrontAgentResp)) :
    List String → Option FrontAgentResp
  | [] => none
  | a :: rest =>
    match lookupResp m a with
    | some r => if r.error = none then some r else bestByPriority m rest
    | none => bestByPriority m rest

/-- `AgentCoordinator._get_best_agent_response`: first non-error response in
`codePriority` order; otherwise the first non-error value in dict order;
otherwise `noValidResponse`. -/
def getBestAgentResponse (m : List (String × FrontAgentResp)) : FrontAgentResp :=
  match bestByPriority m codePriority with
  | some r => r
  | none =>
    match m.find? (fun p => p.2.error = none) with
    | some p => p.2
    | none => noValidResponse

/-- The fallback dict built in `_synthesize_responses`' `except` branch from
the best available response: note `confidence` is hard-coded to `0.5`. -/
def mkSynthFallback (best : FrontAgentResp) : SynthResult :=
  { answer := best.answer.getD "मुझे इस समय उत्तर देने में कुछ कठिनाई हो रही है।",
    confidence := 1/2,
    sources := best.sources.getD [],
    key_recommendations := best.recommendations.getD [],
    caveats := ["Fallback response due to synthesis error"],
    follow_up_questions := [],
    agents_consulted := none }

/-- `AgentCoordinator._synthesize_responses`: the LLM call plus JSON parse is
the oracle `llm` (`none` = the call raised or its output was unparseable).
On success the parsed object is returned with `agents_consulted` set to the
dict's keys; on failure the deterministic fallback is built from
`getBestAgentResponse`. -/
def synthesizeResponses (llm : Option SynthLLMOut)
    (m : List (String × FrontAgentResp)) : SynthResult :=
  match llm with
  | some out =>
      { answer := out.answer, confidence := out.confidence,
        sources := out.sources, key_recommendations := out.key_recommendations,
        caveats := out.caveats, follow_up_questions := out.follow_up_questions,
        agents_consulted := some (m.map (fun p => p.1)) }
  | none => mkSynthFallback (getBestAgentResponse m)

/-! ## Frontend coordinator: routing (`AgentCoordinator._route_to_agents`) -/

/-- The query-analysis dict consumed by `_route_to_agents` (keys the code
reads; `required_agents` and `urgency` are read with `.get`). -/
structure FrontAnalysis where
  type : String
  required_agents : Option (List String) := none
  urgency : Option String := none
  deriving DecidableEq, Repr

/-- One agent call as the dispatcher sees it: its eventual outcome (the
`_call_*` wrappers are total — they catch every exception and return an
error dict) and its wall-clock runtime in abstract time units.  `gather`
awaits all tasks, so a dispatch completes at the maximum runtime. -/
structure AgentTask where
  result : FrontAgentResp
  duration : Nat
  deriving DecidableEq, Repr

/-- `agent_names = ['crop_advisor', 'weather_agent', 'finance_agent',
'pest_disease_agent']` in `_route_to_agents`, verbatim. -/
def agentNames : List String :=
  ["crop_advisor", "weather_agent", "finance_agent", "pest_disease_agent"]

/-- The task list built by `_route_to_agents`' four `if` statements, in
order: crop, weather, finance, pest — each appended only when selected. -/
def selectedTasks (a : FrontAnalysis) (c w f p : AgentTask) : List AgentTask :=
  let req := a.required_agents.getD ["crop_advisor"]
  (if "crop_advisor" ∈ req ∨ a.type = "crop_selection" ∨ a.type = "general"
     then [c] else []) ++
  (if "weather_agent" ∈ req ∨ a.type = "weather" then [w] else []) ++
  (if "finance_agent" ∈ req ∨ a.type = "finance" ∨ a.type = "market"
     then [f] else []) ++
  (if "pest_disease_agent" ∈ req ∨ a.type = "pest_disease" then [p] else [])

/-- `asyncio.gather` returns once every task has finished: its completion
time is the maximum of the task runtimes (0 when there are none). -/
def gatherDuration (tasks : List AgentTask) : Nat :=
  tasks.foldr (fun t m => max t.duration m) 0

/-- The result-collection loop of `_route_to_agents`:
`for i, result in enumerate(results): if i < len(agent_names) and not
isinstance(result, Exception): agent_responses[agent_names[i]] = result`.
The wrapper coroutines never raise, so the `isinstance` test is always
false and entry `i` is keyed by `agent_names[i]` — the *fixed* list, not
the selected subset. -/
def collectResults (results : List FrontAgentResp) : List (String × FrontAgentResp) :=
  results.enum.filterMap (fun ir =>
    match agentNames.get? ir.1 with
    | some n => some (n, ir.2)
    | none => none)

/-- `AgentCoordinator._route_to_agents`: build the selected task list, run
them all under `gather`, key the results positionally by `agentNames`.
Returns the response mapping and the dispatch completion time. -/
def routeToAgents (a : FrontAnalysis) (c w f p : AgentTask) :
    List (String × FrontAgentResp) × Nat :=
  let sel := selectedTasks a c w f p
  (collectResults (sel.map (fun t => t.result)), gatherDuration sel)

/-! ## Frontend coordinator: the whole `AgentCoordinator.process_query` -/

/-- The dict produced by `ResponseFormatter.format_response` as
`process_query` reads it: `answer`, `confidence`, `sources` are indexed
directly, `recommendations` and `follow_up_questions` with `.get`. -/
structure FormattedResp where
  answer : String
  confidence : Rat
  sources : List String
  recommendations : Option (List String) := none
  follow_up_questions : Option (List String) := none
  deriving DecidableEq, Repr

/-- The default analysis dict `_analyze_query` returns from its own
`except` branch (that method never raises: it catches the LLM failure
itself). -/
def defaultAnalysis : FrontAnalysis :=
  { type := "general", required_agents := some ["crop_advisor"],
    urgency := some "medium" }

/-- External collaborators of `AgentCoordinator.process_query`, as oracles:
language detection (total), query translation (may raise), the analysis
LLM (`none` = raised or unparseable, handled inside `_analyze_query`), the
four agent calls, the synthesis LLM, the back-translation (may raise), and
the response formatter (external module, total). -/
structure FrontendOracles where
  detectedLang : String
  translateToEn : Except String String
  analysisLLM : Option FrontAnalysis
  cropTask : AgentTask
  weatherTask : AgentTask
  financeTask : AgentTask
  pestTask : AgentTask
  synthLLM : Option SynthLLMOut
  translateBack : Except String String
  format : SynthResult → FormattedResp

/-- The dict `AgentCoordinator.process_query` returns.  The success dict
and the error dict expose different keys, hence the `Option` fields
(`processing_time` is wall-clock, outside the model). -/
structure FrontendResult where
  answer : String
  confidence : Rat
  sources : List String
  recommendations : Option (List String) := none
  follow_up_questions : Option (List String) := none
  language : String
  agents_used : Option (List String) := none
  query_type : Option String := none
  urgency : Option String := none
  error : Option String := none
  deriving Repr

/-- The literal error dict of `process_query`'s `except` branch: a fixed
Hindi apology, confidence `0.0`, empty sources, language `"hi"`. -/
def frontendErrorFallback (e : String) : FrontendResult :=
  { answer := "मुझे खुशी होगी कि मैं आपकी मदद कर सकूं, लेकिन अभी मुझे कुछ तकनीकी समस्या का सामना करना पड़ रहा है। कृपया थोड़ी देर बाद कोशिश करें।",
    confidence := 0,
    sources := [],
    language := "hi",
    error := some e }

/-- `AgentCoordinator.process_query`: detect, translate (may raise),
analyze (self-healing), route, synthesize, translate back (may raise),
format, assemble.  Any exception lands in the `except` branch producing
`frontendErrorFallback`. -/
def frontendProcessQuery (query : String) (o : FrontendOracles) : FrontendResult :=
  let lang := o.detectedLang
  -- The translated query feeds `_analyze_query` and `_route_to_agents`
  -- only through the oracles, which already fix those calls' outcomes.
  match (if lang ≠ "en" then o.translateToEn else Except.ok query : Except String String) with
  | Except.error e => frontendErrorFallback e
  | Except.ok _englishQuery =>
    let analysis := o.analysisLLM.getD defaultAnalysis
    let responses :=
      (routeToAgents analysis o.cropTask o.weatherTask o.financeTask o.pestTask).1
    let synth := synthesizeResponses o.synthLLM responses
    match (if lang ≠ "en" then o.translateBack else Except.ok synth.answer : Except String String) with
    | Except.error e => frontendErrorFallback e
    | Except.ok finalAnswer =>
      let fmt := o.format { synth with answer := finalAnswer }
      { answer := fmt.answer, confidence := fmt.confidence,
        sources := fmt.sources,
        recommendations := some (fmt.recommendations.getD []),
        follow_up_questions := some (fmt.follow_up_questions.getD []),
        language := lang,
        agents_used := some (responses.map (fun p => p.1)),
        query_type := some analysis.type,
        urgency := some (analysis.urgency.getD "normal"),
        error := none }

/-! ## Backend service (`src/Backend/app/services/ai_agents.py`) -/

/-- The response dict a backend agent's `process_query` returns: `answer`
indexed directly, the rest read with `.get`. -/
structure BackendAgentResp where
  answer : String
  confidence : Option Rat := none
  sources : Option (List String) := none
  suggestions : Option (List String) := none
  deriving DecidableEq, Repr

/-- External collaborators of `AIAgentService.process_query`: language
detection (may raise), both translation directions (may raise), location
extraction (total), the embedding model behind the classifier's semantic
fallback, the knowledge-base search (may raise), and the selected agent's
call (may raise). -/
structure BackendOracles where
  detect : Except String (String × Rat)
  translateIn : Except String String
  translateOut : Except String String
  extractLoc : Option String
  sim : AgentType → Rat
  kbSearch : Except String (List String)
  agentCall : Except String BackendAgentResp

/-- The dict `AIAgentService.process_query` returns.  The fallback dict of
the `except` branch carries no `sources`/`suggestions` keys, hence
`Option` (`processing_time` and the timestamp metadata are wall-clock,
outside the model). -/
structure BackendResult where
  answer : String
  original_query : String
  agent_type : String
  language : String
  confidence_score : Rat
  sources : Option (List String) := none
  suggestions : Option (List String) := none
  location : Option String := none
  error : Option String := none
  deriving Repr

/-- `AIAgentService._get_fallback_response`: apology keyed by language,
defaulting to English. -/
def getFallbackResponse (lang : String) : String :=
  if lang = "en" then
    "I apologize, but I'm having trouble understanding your question right now. Please try rephrasing your agricultural query, and I'll do my best to help you."
  else if lang = "hi" then
    "मुझे खेद है, मुझे अभी आपका प्रश्न समझने में कठिनाई हो रही है। कृपया अपना कृषि संबंधी प्रश्न दोबारा पूछें, और मैं आपकी सहायता करने की पूरी कोशिश करूंगा।"
  else
    "I apologize, but I'm having trouble understanding your question right now. Please try rephrasing your agricultural query, and I'll do my best to help you."

/-- The fallback dict of `process_query`'s `except` branch — only reachable
once `original_language` is bound, i.e. after `detect_language`
succeeded. -/
def mkBackendFallback (query lang e : String) : BackendResult :=
  { answer := getFallbackResponse lang, original_query := query,
    agent_type := "fallback", language := lang,
    confidence_score := 1/10, error := some e }

/-- The message of the `NameError` Python raises when the `except` handler
evaluates `self._get_fallback_response(original_language)` with
`original_language` never assigned. -/
def nameErrorMsg : String := "NameError: name 'original_language' is not defined"

/-- `if not location: location = extract_location(processed_query)` (the
`None` case; an empty-string location, also falsy in Python, is outside the
`Option` model). -/
def chooseLoc (location extracted : Option String) : Option String :=
  match location with
  | some l => some l
  | none => extracted

/-- `AIAgentService.process_query`.  The `detect_language` call is the
first statement of the `try` block; if it raises, the handler itself
raises `NameError` (its first expression reads the unassigned
`original_language`), so no dict is returned at all — modelled as
`Except.error`.  Every later exception yields `Except.ok` of the fallback
dict. -/
def backendProcessQuery (query : String) (location : Option String)
    (o : BackendOracles) : Except String BackendResult :=
  match o.detect with
  | Except.error _ => Except.error nameErrorMsg
  | Except.ok (lang, _conf) =>
    match (if lang ≠ "en" then o.translateIn else Except.ok query : Except String String) with
    | Except.error e => Except.ok (mkBackendFallback query lang e)
    | Except.ok processedQuery =>
      match o.kbSearch with
      | Except.error e => Except.ok (mkBackendFallback query lang e)
      | Except.ok _ctx =>
        match o.agentCall with
        | Except.error e => Except.ok (mkBackendFallback query lang e)
        | Except.ok resp =>
          match (if lang ≠ "en" then o.translateOut else Except.ok resp.answer : Except String String) with
          | Except.error e => Except.ok (mkBackendFallback query lang e)
          | Except.ok finalAnswer =>
            Except.ok
              { answer := finalAnswer, original_query := query,
                agent_type := agentTypeName (classifyQuery processedQuery o.sim),
                language := lang,
                confidence_score := resp.confidence.getD (4/5),
                sources := some (resp.sources.getD []),
                suggestions := some (resp.suggestions.getD []),
                location := chooseLoc location o.extractLoc, error := none }

/-! ## Session store and memory
(`src/Frontend/src/utils/query_handler.py`) -/

/-- One entry of `active_sessions[sid]["queries"]`: the cleaned query, the
answer, and the (wall-clock, opaque) timestamp string. -/
structure SessionEntry where
  query : String
  response : String
  timestamp : String
  deriving DecidableEq, Repr

/-- One value of the `active_sessions` dict (`created_at` is wall-clock,
outside the model). -/
structure SessionData where
  queries : List SessionEntry
  context : List (String × String)
  deriving DecidableEq, Repr

/-- Dict lookup in `active_sessions`. -/
def lookupSession (s : List (String × SessionData)) (sid : String) :
    Option SessionData :=
  (s.find? (fun p => p.1 == sid)).map (fun p => p.2)

/-- The session-append step of the `/query` route:
`if session_id in active_sessions:
active_sessions[session_id]["queries"].append({...})` — an unconditional
append to the list, with no capacity check. -/
def storeQuery (s : List (String × SessionData)) (sid : String)
    (e : SessionEntry) : List (String × SessionData) :=
  if (s.find? (fun p => p.1 == sid)).isSome then
    s.map (fun p =>
      if p.1 == sid then (p.1, { p.2 with queries := p.2.queries ++ [e] }) else p)
  else s

/-- Application state visible to the `/session/{sid}` DELETE route: the
`active_sessions` dict plus the coordinator's single, global conversation
memory (`AgentCoordinator.memory`, a LangChain buffer shared by every
session; `clear()` empties it). -/
structure AppState where
  sessions : List (String × SessionData)
  coordMemory : List (String × String)
  deriving DecidableEq, Repr

/-- `clear_session(session_id)`: delete the dict entry if present, then
`coordinator.clear_memory()` — which clears the one global memory,
whatever session it was invoked for. -/
def clearSession (st : AppState) (sid : String) : AppState :=
  { sessions := st.sessions.filter (fun p => ¬ (p.1 = sid)),
    coordMemory := [] }

/-! ## Claim C1: each selected agent's outcome keyed to that agent -/

/-- An agent task that was never awaited (placeholder for unselected
agents). -/
def dummyTask : AgentTask := { result := {}, duration := 0 }

/-- Analysis that selects exactly the weather agent (`type == 'weather'`,
`required_agents == ['weather_agent']`): no other `if` in
`_route_to_agents` fires. -/
def exC1analysis : FrontAnalysis :=
  { type := "weather", required_agents := some ["weather_agent"] }

/-- The weather agent's call fails; its `_call_weather_agent` wrapper turns
that into an error dict. -/
def exC1weatherFail : AgentTask :=
  { result := { error := some "weather API timeout", agent := some "weather_agent" },
    duration := 1 }

/-- C1: the claim says a failed agent call yields a Failure entry *for that
agent* in the mapping handed to the Synthesizer.  The code violates it:
`_route_to_agents` keys `results[i]` by `agent_names[i]` with `agent_names`
the fixed four-element list, while `tasks` holds only the selected agents —
so when only the weather agent is selected and fails, its failure entry is
stored under `"crop_advisor"` and the mapping has no `"weather_agent"` key
at all. -/
theorem C1_failure_entry_miskeyed :
    (routeToAgents exC1analysis dummyTask exC1weatherFail dummyTask dummyTask).1
      = [("crop_advisor", exC1weatherFail.result)]
    ∧ lookupResp
        (routeToAgents exC1analysis dummyTask exC1weatherFail dummyTask dummyTask).1
        "weather_agent" = none :=
  ⟨rfl, rfl⟩

/-! ## Claim C9: clearing one session leaves other sessions untouched -/

def exC9dataA : SessionData :=
  { queries := [⟨"qA", "aA", "t1"⟩], context := [] }

def exC9dataB : SessionData :=
  { queries := [⟨"qB", "aB", "t2"⟩], context := [] }

/-- Two live sessions; the coordinator's single global conversation memory
holds session B's last exchange (every `process_query` appends to that one
shared buffer whatever its `session_id`). -/
def exC9state : AppState :=
  { sessions := [("A", exC9dataA), ("B", exC9dataB)],
    coordMemory := [("qB", "aB")] }

/-- C9: the claim says `clear(sessionId)` removes only that session's
conversational context.  The code removes only session A's entry from
`active_sessions`, but then calls `coordinator.clear_memory()`, which
empties the one global conversation memory shared by every session — B's
exchange `("qB","aB")` held there is destroyed by clearing A (the in-code
comment says "Clear agent memory for this session", but `clear_memory`
takes no session and clears everything). -/
theorem C9_clear_wipes_shared_memory :
    (clearSession exC9state "A").sessions = [("B", exC9dataB)]
    ∧ exC9state.coordMemory = [("qB", "aB")]
    ∧ (clearSession exC9state "A").coordMemory = [] := by
  refine ⟨?_, rfl, rfl⟩
  decide

/-! ## Claim C10: fallback only after successful language detection -/

/-- Truth value of `backendProcessQuery` having returned a dict at all
(rather than propagating an exception). -/
def isOkResult : Except String BackendResult → Bool
  | Except.ok _ => true
  | Except.error _ => false

/-- C10: the backend's degraded-fallback dict is produced only for
exceptions raised after `detect_language` succeeded.  If detection itself
raises, the `except` handler evaluates
`self._get_fallback_response(original_language)` with `original_language`
never assigned, so the handler raises `NameError` and no response dict is
returned; once detection has succeeded, `process_query` always returns a
dict (success or fallback). -/
theorem C10_detection_failure_raises :
    (∀ (q : String) (loc : Option String) (o : BackendOracles) (e : String),
        o.detect = Except.error e →
        backendProcessQuery q loc o = Except.error nameErrorMsg)
    ∧ (∀ (q : String) (loc : Option String) (o : BackendOracles)
        (lang : String) (conf : Rat),
        o.detect = Except.ok (lang, conf) →
        isOkResult (backendProcessQuery q loc o) = true) := by
  constructor
  · intro q loc o e h
    simp only [backendProcessQuery, h]
  · intro q loc o lang conf h
    simp only [backendProcessQuery, h]
    repeat first | rfl | split

/-- Oracles whose language-detection step raises. -/
def exC10badOracles : BackendOracles :=
  { detect := Except.error "detector crashed", translateIn := Except.ok "q",
    translateOut := Except.ok "a", extractLoc := none, sim := fun _ => 0,
    kbSearch := Except.ok [], agentCall := Except.error "no agent" }

/-- Oracles whose language-detection step succeeds (a later step fails). -/
def exC10okOracles : BackendOracles :=
  { exC10badOracles with detect := Except.ok ("en", 1) }

/-- C10 witness: concrete runs of both halves. -/
theorem C10_witness :
    backendProcessQuery "hello" none exC10badOracles = Except.error nameErrorMsg
    ∧ isOkResult (backendProcessQuery "hello" none exC10okOracles) = true :=
  ⟨C10_detection_failure_raises.1 "hello" none exC10badOracles "detector crashed" rfl,
   C10_detection_failure_raises.2 "hello" none exC10okOracles "en" 1 rfl⟩

/-! ## Claim C7: session context capped at K = 5 -/

/-- Storing when the session's entry list is mapped in place: looking the
session up afterwards sees exactly one more entry appended. -/
lemma lookupSession_map_append (s : List (String × SessionData)) (sid : String)
    (e : SessionEntry) :
    lookupSession
      (s.map (fun p =>
        if p.1 == sid then (p.1, { p.2 with queries := p.2.queries ++ [e] }) else p))
      sid
    = (lookupSession s sid).map (fun d => { d with queries := d.queries ++ [e] }) := by
  induction s with
  | nil => rfl
  | cons p rest ih =>
    by_cases hp : p.1 = sid
    · simp [lookupSession, List.find?, hp]
    · simp only [List.map_cons]
      rw [if_neg (by simp [hp])]
      simp only [lookupSession, List.find?] at ih ⊢
      rw [show ((p.1 == sid) = false) from by simp [hp]]
      simpa using ih

/-- A session id absent from the dict stays absent. -/
lemma lookupSession_eq_none (s : List (String × SessionData)) (sid : String)
    (h : s.find? (fun p => p.1 == sid) = none) :
    lookupSession s sid = none := by
  simp [lookupSession, h]

/-- C7 (amended): the `/query` route's session store has no capacity bound
at all — appending an exchange always grows the session's `queries` list by
exactly one entry, at any length (the K = 5 window exists only in the
coordinator's single global LangChain memory, which is not per-session). -/
theorem C7_append_never_evicts :
    ∀ (s : List (String × SessionData)) (sid : String) (e : SessionEntry),
      lookupSession (storeQuery s sid e) sid
        = (lookupSession s sid).map (fun d => { d with queries := d.queries ++ [e] }) := by
  intro s sid e
  unfold storeQuery
  split
  · exact lookupSession_map_append s sid e
  · next h =>
    have hnone : s.find? (fun p => p.1 == sid) = none := by
      cases hf : s.find? (fun p => p.1 == sid) with
      | none => rfl
      | some x => rw [hf] at h; simp at h
    rw [lookupSession_eq_none s sid hnone]
    rfl

def exC7entry (q a : String) : SessionEntry :=
  { query := q, response := a, timestamp := "2026-01-01T00:00:00" }

/-- A fresh session, then six stored exchanges. -/
def exC7after : List (String × SessionData) :=
  storeQuery (storeQuery (storeQuery (storeQuery (storeQuery (storeQuery
    [("s1", { queries := [], context := [] })]
    "s1" (exC7entry "q1" "a1")) "s1" (exC7entry "q2" "a2"))
    "s1" (exC7entry "q3" "a3")) "s1" (exC7entry "q4" "a4"))
    "s1" (exC7entry "q5" "a5")) "s1" (exC7entry "q6" "a6")

/-- C7 counterexample: the claim says the per-session context never holds
more than 5 (query, answer) pairs and that a 6th append evicts the oldest.
After six appends the code's session holds 6 entries, and the oldest
(`"q1"`) is still the head — nothing was evicted. -/
theorem C7_counterexample :
    (lookupSession exC7after "s1").map (fun d => d.queries.length) = some 6
    ∧ (lookupSession exC7after "s1").map (fun d => d.queries.head?.map (fun x => x.query))
        = some (some "q1")
    ∧ ¬ (6 ≤ 5) :=
  ⟨rfl, rfl, by decide⟩

/-! ## Shared lemmas about the fallback priority scan -/

/-- The priority scan skips an agent whose entry is absent or carries an
error. -/
lemma bestByPriority_skip (m : List (String × FrontAgentResp)) (a : String)
    (rest : List String)
    (h : ∀ r, lookupResp m a = some r → r.error ≠ none) :
    bestByPriority m (a :: rest) = bestByPriority m rest := by
  cases hr : lookupResp m a with
  | none => simp [bestByPriority, hr]
  | some r => simp [bestByPriority, hr, h r hr]

/-- The priority scan returns the first error-free entry it meets. -/
lemma bestByPriority_hit (m : List (String × FrontAgentResp)) (a : String)
    (rest : List String) (r : FrontAgentResp)
    (h1 : lookupResp m a = some r) (h2 : r.error = none) :
    bestByPriority m (a :: rest) = some r := by
  simp [bestByPriority, h1, h2]

/-- A successful lookup returns a value of the dict. -/
lemma lookupResp_mem (m : List (String × FrontAgentResp)) (a : String)
    (r : FrontAgentResp) (h : lookupResp m a = some r) :
    ∃ p ∈ m, p.2 = r := by
  unfold lookupResp at h
  cases hf : m.find? (fun p => p.1 == a) with
  | none => rw [hf] at h; simp at h
  | some p =>
    rw [hf] at h
    refine ⟨p, List.mem_of_find?_eq_some hf, ?_⟩
    simpa using h

/-- When every entry of the mapping carries an error,
`_get_best_agent_response` reaches its terminal
`{"answer": "No valid response available", "confidence": 0.0}`. -/
lemma getBest_all_failed (m : List (String × FrontAgentResp))
    (h : ∀ p ∈ m, p.2.error ≠ none) :
    getBestAgentResponse m = noValidResponse := by
  have hlook : ∀ a r, lookupResp m a = some r → r.error ≠ none := by
    intro a r hr
    obtain ⟨p, hp, hpr⟩ := lookupResp_mem m a r hr
    exact hpr ▸ h p hp
  unfold getBestAgentResponse codePriority
  rw [bestByPriority_skip _ _ _ (hlook _), bestByPriority_skip _ _ _ (hlook _),
    bestByPriority_skip _ _ _ (hlook _), bestByPriority_skip _ _ _ (hlook _)]
  have hfind : m.find? (fun p => p.2.error = none) = none := by
    rw [List.find?_eq_none]
    intro p hp
    simpa using h p hp
  simp [bestByPriority, hfind]

/-! ## Claim C3: all-failure behavior -/

def exC3map : List (String × FrontAgentResp) :=
  [("crop_advisor", { error := some "crop model crashed", agent := some "crop_advisor" }),
   ("weather_agent", { error := some "weather API down", agent := some "weather_agent" })]

/-- C3 counterexample: the claim says an all-failure dispatch yields a
fixed apology whose confidence lies in [0.1, 0.2].  On the coordinator's
deterministic all-failure path (synthesis generation also failed) the
fallback hard-codes confidence 0.5, outside [0.1, 0.2], and sets no
`agents_consulted` key. -/
theorem C3_counterexample :
    (synthesizeResponses none exC3map).confidence = 1/2
    ∧ ¬ ((1:Rat)/10 ≤ (synthesizeResponses none exC3map).confidence
         ∧ (synthesizeResponses none exC3map).confidence ≤ (1:Rat)/5)
    ∧ (synthesizeResponses none exC3map).agents_consulted = none := by
  have hc : (synthesizeResponses none exC3map).confidence = 1/2 := rfl
  refine ⟨hc, ?_, rfl⟩
  rintro ⟨-, h2⟩
  rw [hc] at h2
  norm_num at h2

/-- C3 (amended): when every selected agent failed, the coordinator's
deterministic terminal path (generation failed too) returns the literal
answer "No valid response available" with confidence 0.5, empty sources and
no `agents_consulted`; the backend, when the single agent call raises after
successful detection, returns its apology fallback with confidence 0.1 and
no sources key at all. -/
theorem C3_all_failed_behavior :
    (∀ (m : List (String × FrontAgentResp)), (∀ p ∈ m, p.2.error ≠ none) →
       synthesizeResponses none m =
         { answer := "No valid response available", confidence := 1/2,
           sources := [], key_recommendations := [],
           caveats := ["Fallback response due to synthesis error"],
           follow_up_questions := [], agents_consulted := none })
    ∧ (∀ (q : String) (loc : Option String) (o : BackendOracles)
         (conf : Rat) (ctx : List String) (e : String),
         o.detect = Except.ok ("en", conf) → o.kbSearch = Except.ok ctx →
         o.agentCall = Except.error e →
         backendProcessQuery q loc o = Except.ok (mkBackendFallback q "en" e)
         ∧ (mkBackendFallback q "en" e).confidence_score = 1/10
         ∧ (mkBackendFallback q "en" e).sources = none) := by
  constructor
  · intro m h
    show mkSynthFallback (getBestAgentResponse m) = _
    rw [getBest_all_failed m h]
    rfl
  · intro q loc o conf ctx e hdet hkb hag
    refine ⟨?_, rfl, rfl⟩
    simp only [backendProcessQuery, hdet, hkb, hag]
    norm_num

/-- C3 witness: concrete runs of both halves of the amended claim. -/
theorem C3_witness :
    synthesizeResponses none exC3map =
      { answer := "No valid response available", confidence := 1/2,
        sources := [], key_recommendations := [],
        caveats := ["Fallback response due to synthesis error"],
        follow_up_questions := [], agents_consulted := none }
    ∧ backendProcessQuery "help my crop" none
        { exC10okOracles with agentCall := Except.error "agent exploded" }
      = Except.ok (mkBackendFallback "help my crop" "en" "agent exploded") :=
  ⟨C3_all_failed_behavior.1 exC3map (by decide),
   (C3_all_failed_behavior.2 "help my crop" none
     { exC10okOracles with agentCall := Except.error "agent exploded" }
     1 [] "agent exploded" rfl rfl rfl).1⟩

/-! ## Claim C4: single Success passes through unchanged -/

/-- A single Success result with confidence 0.9 as dispatched to the
synthesizer. -/
def exC4map : List (String × FrontAgentResp) :=
  [("weather_agent",
    { answer := some "Sunny in Pune tomorrow", confidence := some (9/10),
      sources := some ["imd.gov.in"],
      recommendations := some ["Irrigate in the evening"] })]

/-- C4 counterexample: the claim says a lone Success with confidence 0.9
reaches the response with confidence exactly 0.9.  On the coordinator's
deterministic path (generation step failed, fallback to exactly this one
Success) the fallback hard-codes confidence 0.5. -/
theorem C4_counterexample :
    (synthesizeResponses none exC4map).confidence = 1/2
    ∧ ((1:Rat)/2 ≠ 9/10) :=
  ⟨rfl, by norm_num⟩

/-- C4 (amended): the pass-through holds in the backend single-agent
pipeline — an agent Success with confidence `c` yields `confidence_score`
exactly `c` and the answer unchanged (English path).  The frontend
synthesizer does not pass confidence through: whenever its generation step
fails, the fallback's confidence is the constant 0.5 regardless of the
agent's confidence. -/
theorem C4_passthrough_backend_only :
    (∀ (q : String) (loc : Option String) (o : BackendOracles)
        (conf c : Rat) (ctx : List String) (resp : BackendAgentResp),
        o.detect = Except.ok ("en", conf) → o.kbSearch = Except.ok ctx →
        o.agentCall = Except.ok resp → resp.confidence = some c →
        backendProcessQuery q loc o = Except.ok
          { answer := resp.answer, original_query := q,
            agent_type := agentTypeName (classifyQuery q o.sim),
            language := "en", confidence_score := c,
            sources := some (resp.sources.getD []),
            suggestions := some (resp.suggestions.getD []),
            location := chooseLoc loc o.extractLoc, error := none })
    ∧ (∀ (m : List (String × FrontAgentResp)),
        (synthesizeResponses none m).confidence = 1/2) := by
  constructor
  · intro q loc o conf c ctx resp hdet hkb hag hconf
    simp only [backendProcessQuery, hdet, hkb, hag]
    norm_num
    simp [hconf]
  · intro m
    rfl

/-- Backend oracles: English query, agent Success with confidence 0.9. -/
def exC4oracles : BackendOracles :=
  { detect := Except.ok ("en", 1), translateIn := Except.ok "unused",
    translateOut := Except.ok "unused", extractLoc := some "Pune",
    sim := fun _ => 0, kbSearch := Except.ok ["snippet"],
    agentCall := Except.ok
      { answer := "Sunny in Pune tomorrow", confidence := some (9/10),
        sources := some ["imd.gov.in"], suggestions := none } }

/-- C4 witness: concrete runs of both halves of the amended claim. -/
theorem C4_witness :
    backendProcessQuery "weather tomorrow" none exC4oracles = Except.ok
      { answer := "Sunny in Pune tomorrow", original_query := "weather tomorrow",
        agent_type := agentTypeName (classifyQuery "weather tomorrow" (fun _ => 0)),
        language := "en", confidence_score := 9/10,
        sources := some ["imd.gov.in"], suggestions := some [],
        location := some "Pune", error := none }
    ∧ (synthesizeResponses none exC4map).confidence = 1/2 :=
  ⟨C4_passthrough_backend_only.1 "weather tomorrow" none exC4oracles 1 (9/10)
     ["snippet"]
     { answer := "Sunny in Pune tomorrow", confidence := some (9/10),
       sources := some ["imd.gov.in"], suggestions := none }
     rfl rfl rfl rfl,
   C4_passthrough_backend_only.2 exC4map⟩

/-! ## Claim C5: synthesis-failure fallback and its priority order -/

/-- Modelled from the spec: the fallback priority order the claim asserts —
weather > crop > financial > policy (§4.2) — rendered in the coordinator's
agent names.  Used only to compare against the code's order. -/
def specPriorityOrder : List String :=
  ["weather_agent", "crop_advisor", "finance_agent", "pest_disease_agent"]

/-- Modelled from the spec: best-response selection in the spec's priority
order, to be diffed against `getBestAgentResponse`. -/
def specBestAgentResponse (m : List (String × FrontAgentResp)) : Option FrontAgentResp :=
  bestByPriority m specPriorityOrder

def exC5crop : FrontAgentResp :=
  { answer := some "crop advice", confidence := some (6/10) }

def exC5weather : FrontAgentResp :=
  { answer := some "weather advice", confidence := some (9/10) }

def exC5map : List (String × FrontAgentResp) :=
  [("crop_advisor", exC5crop), ("weather_agent", exC5weather)]

/-- C5 counterexample: with both a crop and a weather Success available and
the generation step failing, the claim's order (weather first) would pick
the weather answer; the code's `priority` list starts with `crop_advisor`,
so the fallback answer is the crop answer. -/
theorem C5_counterexample :
    (synthesizeResponses none exC5map).answer = "crop advice"
    ∧ specBestAgentResponse exC5map = some exC5weather
    ∧ ("crop advice" : String) ≠ "weather advice" :=
  ⟨rfl, rfl, by decide⟩

/-- C5 (amended): when the generation step errors or returns unparseable
output, the Synthesizer never raises and falls back deterministically to
the first error-free AgentResult in the code's fixed priority order
`crop_advisor > weather_agent > finance_agent > pest_disease_agent`
(keeping its answer, sources and recommendations, with confidence replaced
by the constant 0.5). -/
theorem C5_fallback_priority :
    ∀ (m : List (String × FrontAgentResp)) (i : Nat) (a : String)
      (r : FrontAgentResp),
      codePriority.get? i = some a →
      lookupResp m a = some r → r.error = none →
      (∀ (j : Nat) (a' : String) (r' : FrontAgentResp), j < i →
        codePriority.get? j = some a' → lookupResp m a' = some r' →
        r'.error ≠ none) →
      synthesizeResponses none m = mkSynthFallback r := by
  intro m i a r hget hlook herr hprev
  have hbest : bestByPriority m codePriority = some r := by
    match i, hget with
    | 0, hget =>
      have ha : a = "crop_advisor" := by simpa [codePriority] using hget.symm
      subst ha
      rw [show codePriority
          = "crop_advisor" :: ["weather_agent", "finance_agent", "pest_disease_agent"]
          from rfl]
      exact bestByPriority_hit _ _ _ _ hlook herr
    | 1, hget =>
      have ha : a = "weather_agent" := by simpa [codePriority] using hget.symm
      subst ha
      rw [show codePriority
          = "crop_advisor" :: ["weather_agent", "finance_agent", "pest_disease_agent"]
          from rfl]
      rw [bestByPriority_skip _ _ _ (fun r' h => hprev 0 _ r' (by omega) rfl h)]
      exact bestByPriority_hit _ _ _ _ hlook herr
    | 2, hget =>
      have ha : a = "finance_agent" := by simpa [codePriority] using hget.symm
      subst ha
      rw [show codePriority
          = "crop_advisor" :: ["weather_agent", "finance_agent", "pest_disease_agent"]
          from rfl]
      rw [bestByPriority_skip _ _ _ (fun r' h => hprev 0 _ r' (by omega) rfl h),
        bestByPriority_skip _ _ _ (fun r' h => hprev 1 _ r' (by omega) rfl h)]
      exact bestByPriority_hit _ _ _ _ hlook herr
    | 3, hget =>
      have ha : a = "pest_disease_agent" := by simpa [codePriority] using hget.symm
      subst ha
      rw [show codePriority
          = "crop_advisor" :: ["weather_agent", "finance_agent", "pest_disease_agent"]
          from rfl]
      rw [bestByPriority_skip _ _ _ (fun r' h => hprev 0 _ r' (by omega) rfl h),
        bestByPriority_skip _ _ _ (fun r' h => hprev 1 _ r' (by omega) rfl h),
        bestByPriority_skip _ _ _ (fun r' h => hprev 2 _ r' (by omega) rfl h)]
      exact bestByPriority_hit _ _ _ _ hlook herr
  show mkSynthFallback (getBestAgentResponse m) = _
  unfold getBestAgentResponse
  rw [hbest]

/-- C5 witness: a lone weather Success (position 1 of the code's priority
list, with position 0 absent) is the fallback. -/
theorem C5_witness :
    synthesizeResponses none [("weather_agent", exC5weather)]
      = mkSynthFallback exC5weather := by
  apply C5_fallback_priority [("weather_agent", exC5weather)] 1 "weather_agent"
    exC5weather rfl rfl rfl
  intro j a' r' hj hget hlook
  interval_cases j
  have ha : a' = "crop_advisor" := by simpa [codePriority] using hget.symm
  subst ha
  simp [lookupResp, List.find?] at hlook

/-! ## Claim C6: translation failure degrades gracefully -/

/-- A Hindi query whose translation step raises, with everything downstream
healthy — the pipeline would have produced a weather answer had it
proceeded. -/
def exC6oracles : FrontendOracles :=
  { detectedLang := "hi",
    translateToEn := Except.error "translation provider timeout",
    analysisLLM := some { type := "weather", required_agents := some ["weather_agent"] },
    cropTask := dummyTask,
    weatherTask :=
      { result := { answer := some "rain expected", confidence := some (9/10) },
        duration := 1 },
    financeTask := dummyTask, pestTask := dummyTask,
    synthLLM := some
      { answer := "Rain expected tomorrow", confidence := 9/10,
        key_recommendations := [], sources := ["imd.gov.in"], caveats := [],
        follow_up_questions := [] },
    translateBack := Except.ok "कल बारिश होगी",
    format := fun s =>
      { answer := s.answer, confidence := s.confidence, sources := s.sources } }

/-- C6 counterexample: the claim says a failed query translation lets the
pipeline proceed with the original text and flag `TranslationDegraded`.
In the code the exception escapes to `process_query`'s top-level handler:
the result is the fixed apology dict — confidence 0.0, no agents consulted,
an `error` key — and no `TranslationDegraded` flag exists anywhere. -/
theorem C6_counterexample :
    frontendProcessQuery "kal mausam kaisa rahega" exC6oracles
      = frontendErrorFallback "translation provider timeout"
    ∧ (frontendProcessQuery "kal mausam kaisa rahega" exC6oracles).agents_used = none
    ∧ (frontendProcessQuery "kal mausam kaisa rahega" exC6oracles).confidence = 0
    ∧ (frontendProcessQuery "kal mausam kaisa rahega" exC6oracles).error
        = some "translation provider timeout" :=
  ⟨rfl, rfl, rfl, rfl⟩

/-- C6 (amended): if translating the query fails, the exception propagates
to the top-level handler of each pipeline, which returns the fixed degraded
fallback — frontend: the Hindi apology with confidence 0.0 and no agent
consulted; backend: the apology fallback with confidence 0.1.  The
pipeline does not proceed with the original text and no
`TranslationDegraded` condition is flagged (no such flag exists); only the
"never raises to the caller" half of the claim holds. -/
theorem C6_translation_failure_aborts :
    (∀ (q : String) (o : FrontendOracles) (e : String),
       o.detectedLang ≠ "en" → o.translateToEn = Except.error e →
       frontendProcessQuery q o = frontendErrorFallback e)
    ∧ (∀ (q : String) (loc : Option String) (o : BackendOracles)
        (lang : String) (conf : Rat) (e : String),
       o.detect = Except.ok (lang, conf) → lang ≠ "en" →
       o.translateIn = Except.error e →
       backendProcessQuery q loc o = Except.ok (mkBackendFallback q lang e)) := by
  constructor
  · intro q o e hlang htr
    simp only [frontendProcessQuery, if_pos hlang, htr]
  · intro q loc o lang conf e hdet hlang htr
    simp only [backendProcessQuery, hdet, if_pos hlang, htr]

/-- Backend oracles: Hindi query whose translation step raises. -/
def exC6backendOracles : BackendOracles :=
  { detect := Except.ok ("hi", 8/10),
    translateIn := Except.error "provider timeout",
    translateOut := Except.ok "unused", extractLoc := none, sim := fun _ => 0,
    kbSearch := Except.ok [], agentCall := Except.ok { answer := "unused" } }

/-- C6 witness: concrete runs of both halves of the amended claim. -/
theorem C6_witness :
    frontendProcessQuery "fasal kharab ho rahi hai" exC6oracles
      = frontendErrorFallback "translation provider timeout"
    ∧ backendProcessQuery "fasal kharab ho rahi hai" none exC6backendOracles
      = Except.ok (mkBackendFallback "fasal kharab ho rahi hai" "hi" "provider timeout") :=
  ⟨C6_translation_failure_aborts.1 "fasal kharab ho rahi hai" exC6oracles
     "translation provider timeout" (by decide) rfl,
   C6_translation_failure_aborts.2 "fasal kharab ho rahi hai" none
     exC6backendOracles "hi" (8/10) "provider timeout" rfl (by decide) rfl⟩

/-! ## Claim C2: per-call timeout and latency bound -/

/-- At most four tasks are ever selected (one per `if`). -/
lemma selectedTasks_length_le (a : FrontAnalysis) (c w f p : AgentTask) :
    (selectedTasks a c w f p).length ≤ 4 := by
  simp only [selectedTasks]
  split_ifs <;> simp

/-- As long as at most four results arrive, the positional keying keeps
every result (in order) as a value of the mapping. -/
lemma collectResults_map_snd (rs : List FrontAgentResp) (h : rs.length ≤ 4) :
    (collectResults rs).map Prod.snd = rs := by
  rcases rs with - | ⟨a, - | ⟨b, - | ⟨c, - | ⟨d, - | ⟨e, rest⟩⟩⟩⟩⟩
  · rfl
  · rfl
  · rfl
  · rfl
  · rfl
  · exfalso
    simp at h

/-- `gather` finishes no earlier than each of its tasks. -/
lemma duration_le_gather (tasks : List AgentTask) :
    ∀ t ∈ tasks, t.duration ≤ gatherDuration tasks := by
  induction tasks with
  | nil => intro t ht; simp at ht
  | cons x xs ih =>
    intro t ht
    rcases List.mem_cons.mp ht with h | h
    · subst h
      exact le_max_left _ _
    · exact le_trans (ih t h) (le_max_right _ _)

/-- An analysis selecting the crop and weather agents. -/
def exC2analysis : FrontAnalysis :=
  { type := "weather", required_agents := some ["crop_advisor", "weather_agent"] }

def exC2crop : AgentTask :=
  { result := { answer := some "rotate crops", confidence := some (7/10) },
    duration := 1 }

/-- A weather agent that takes 100 time units — far past any per-call
budget "on the order of a few seconds" — and then succeeds. -/
def exC2slowWeather : AgentTask :=
  { result := { answer := some "heavy rain expected", confidence := some (8/10) },
    duration := 100 }

/-- C2 counterexample: the claim says an agent exceeding the allowed
per-call timeout gets a Failure entry and dispatch latency is bounded by
the allowed timeout.  `_route_to_agents` wraps no call in any timeout: the
slow weather agent's entry is its Success result (no error), and the
dispatch takes the full 100 units, not the allowed budget (3 units here). -/
theorem C2_counterexample :
    lookupResp
      (routeToAgents exC2analysis exC2crop exC2slowWeather dummyTask dummyTask).1
      "weather_agent" = some exC2slowWeather.result
    ∧ exC2slowWeather.result.error = none
    ∧ (routeToAgents exC2analysis exC2crop exC2slowWeather dummyTask dummyTask).2 = 100
    ∧ ¬ (100 ≤ 3) :=
  ⟨rfl, rfl, rfl, by decide⟩

/-- C2 (amended): the dispatcher enforces no per-call timeout.  Every
selected agent's entry is its actual outcome, whatever its runtime (a slow
Success is never degraded to a Failure), and `gather` returns only after
every selected call finishes, so dispatch latency is bounded *below* by
each selected agent's actual runtime — not above by an allowed timeout.
Siblings are still all awaited and collected (that half of the claim
holds). -/
theorem C2_no_timeout_enforcement :
    ∀ (a : FrontAnalysis) (c w f p : AgentTask),
      (routeToAgents a c w f p).1.map Prod.snd
        = (selectedTasks a c w f p).map (fun t => t.result)
      ∧ ∀ t ∈ selectedTasks a c w f p,
          t.duration ≤ (routeToAgents a c w f p).2 := by
  intro a c w f p
  constructor
  · apply collectResults_map_snd
    simpa using selectedTasks_length_le a c w f p
  · intro t ht
    exact duration_le_gather _ t ht

/-- C2 witness: the concrete two-agent dispatch of the counterexample,
with the slow agent's runtime bounding dispatch latency from below. -/
theorem C2_witness :
    (routeToAgents exC2analysis exC2crop exC2slowWeather dummyTask dummyTask).1.map
        Prod.snd
      = (selectedTasks exC2analysis exC2crop exC2slowWeather dummyTask dummyTask).map
          (fun t => t.result)
    ∧ exC2slowWeather.duration
        ≤ (routeToAgents exC2analysis exC2crop exC2slowWeather dummyTask dummyTask).2 :=
  ⟨(C2_no_timeout_enforcement exC2analysis exC2crop exC2slowWeather dummyTask dummyTask).1,
   (C2_no_timeout_enforcement exC2analysis exC2crop exC2slowWeather dummyTask dummyTask).2
     exC2slowWeather
     (by show exC2slowWeather ∈ [exC2crop, exC2slowWeather]; simp)⟩

/-! ## Claim C8: the keyword classifier -/

/-- The running maximum of Python's `max(..., key=...)` only grows, every
scanned element stays below it, and it moves off the start only for a
strictly greater score. -/
lemma maxByFirst_bounds (f : AgentType → Nat) (l : List AgentType) :
    ∀ (x : AgentType),
      f x ≤ f (maxByFirst f x l)
      ∧ (∀ y ∈ l, f y ≤ f (maxByFirst f x l))
      ∧ (maxByFirst f x l = x
         ∨ (maxByFirst f x l ∈ l ∧ f x < f (maxByFirst f x l))) := by
  induction l with
  | nil =>
    intro x
    exact ⟨le_refl _, by simp, Or.inl rfl⟩
  | cons c rest ih =>
    intro x
    have hstep : maxByFirst f x (c :: rest)
        = maxByFirst f (if f x < f c then c else x) rest := rfl
    by_cases h : f x < f c
    · rw [hstep, if_pos h]
      obtain ⟨h1, h2, h3⟩ := ih c
      refine ⟨le_of_lt (lt_of_lt_of_le h h1), ?_, ?_⟩
      · intro y hy
        rcases List.mem_cons.mp hy with rfl | hy
        · exact h1
        · exact h2 y hy
      · rcases h3 with heq | ⟨hm, hlt⟩
        · rw [heq]
          exact Or.inr ⟨List.mem_cons_self c rest, h⟩
        · exact Or.inr ⟨List.mem_cons_of_mem c hm, lt_trans h hlt⟩
    · rw [hstep, if_neg h]
      obtain ⟨h1, h2, h3⟩ := ih x
      refine ⟨h1, ?_, ?_⟩
      · intro y hy
        rcases List.mem_cons.mp hy with rfl | hy
        · exact le_trans (not_lt.mp h) h1
        · exact h2 y hy
      · rcases h3 with heq | ⟨hm, hlt⟩
        · exact Or.inl heq
        · exact Or.inr ⟨List.mem_cons_of_mem c hm, hlt⟩

/-- On a list strictly ascending in `agentIdx`, the first maximum wins
every tie: any element scoring equal to the result sits at or after the
result's position. -/
lemma maxByFirst_tie (f : AgentType → Nat) :
    ∀ (l : List AgentType) (x : AgentType),
      List.Pairwise (fun a b => agentIdx a < agentIdx b) (x :: l) →
      ∀ y ∈ x :: l, f y = f (maxByFirst f x l) →
        agentIdx (maxByFirst f x l) ≤ agentIdx y := by
  intro l
  induction l with
  | nil =>
    intro x _ y hy heq
    have hx : y = x := by simpa using hy
    subst hx
    exact le_refl _
  | cons c rest ih =>
    intro x hp y hy heq
    obtain ⟨hx, hcr⟩ := List.pairwise_cons.mp hp
    obtain ⟨hc, hrest⟩ := List.pairwise_cons.mp hcr
    have hstep : maxByFirst f x (c :: rest)
        = maxByFirst f (if f x < f c then c else x) rest := rfl
    rw [hstep] at heq ⊢
    by_cases h : f x < f c
    · rw [if_pos h] at heq ⊢
      have hp' : List.Pairwise (fun a b => agentIdx a < agentIdx b) (c :: rest) := hcr
      obtain ⟨hb1, hb2, hb3⟩ := maxByFirst_bounds f rest c
      rcases List.mem_cons.mp hy with rfl | hy'
      · exfalso
        have : f y < f (maxByFirst f c rest) := lt_of_lt_of_le h hb1
        omega
      · exact ih c hp' y hy' heq
    · rw [if_neg h] at heq ⊢
      have hp' : List.Pairwise (fun a b => agentIdx a < agentIdx b) (x :: rest) := by
        refine List.pairwise_cons.mpr ⟨?_, hrest⟩
        intro b hb
        exact hx b (List.mem_cons_of_mem c hb)
      obtain ⟨hb1, hb2, hb3⟩ := maxByFirst_bounds f rest x
      rcases List.mem_cons.mp hy with rfl | hy'
      · exact ih y hp' y (List.mem_cons_self y rest) heq
      · rcases List.mem_cons.mp hy' with rfl | hy''
        · rcases hb3 with heq2 | ⟨hm, hlt⟩
          · rw [heq2]
            exact le_of_lt (hx y (List.mem_cons_self y rest))
          · exfalso
            have hcx : f y ≤ f x := not_lt.mp h
            omega
        · exact ih x hp' y (List.mem_cons_of_mem x hy'') heq

lemma mem_agentOrder (t : AgentType) : t ∈ agentOrder := by
  cases t <;> simp [agentOrder]

lemma pairwise_agentOrder :
    List.Pairwise (fun a b => agentIdx a < agentIdx b) agentOrder := by
  unfold agentOrder
  refine List.Pairwise.cons ?_ (List.Pairwise.cons ?_
    (List.Pairwise.cons ?_ (List.pairwise_singleton _ _))) <;>
    intro b hb <;> fin_cases hb <;> simp [agentIdx]

/-- What the keyword tier of `_classify_query` guarantees whenever some
category scores: it reports the score-maximal category, first in
`agentOrder` among equal scores. -/
lemma keywordPick_spec (s : AgentType → Nat) (t0 : AgentType)
    (h0 : 0 < s t0) :
    ∃ r, keywordPick s = some r ∧ 0 < s r ∧ (∀ t, s t ≤ s r)
      ∧ (∀ t, s t = s r → agentIdx r ≤ agentIdx t) := by
  have ht0 : t0 ∈ agentOrder.filter (fun t => 0 < s t) :=
    List.mem_filter.mpr ⟨mem_agentOrder t0, by simpa using h0⟩
  rcases hcs : agentOrder.filter (fun t => 0 < s t) with - | ⟨t, ts⟩
  · rw [hcs] at ht0
    simp at ht0
  obtain ⟨hb1, hb2, hb3⟩ := maxByFirst_bounds s ts t
  have hmem : maxByFirst s t ts ∈ t :: ts := by
    rcases hb3 with heq | ⟨hm, -⟩
    · rw [heq]; exact List.mem_cons_self t ts
    · exact List.mem_cons_of_mem t hm
  have hrpos : 0 < s (maxByFirst s t ts) := by
    have : maxByFirst s t ts ∈ agentOrder.filter (fun u => 0 < s u) := by
      rw [hcs]; exact hmem
    simpa using (List.mem_filter.mp this).2
  have hpw : List.Pairwise (fun a b => agentIdx a < agentIdx b) (t :: ts) := by
    rw [← hcs]
    exact List.Pairwise.sublist (List.filter_sublist _) pairwise_agentOrder
  refine ⟨maxByFirst s t ts, ?_, hrpos, ?_, ?_⟩
  · unfold keywordPick
    rw [hcs]
  · intro t1
    by_cases h1 : 0 < s t1
    · have : t1 ∈ agentOrder.filter (fun u => 0 < s u) :=
        List.mem_filter.mpr ⟨mem_agentOrder t1, by simpa using h1⟩
      rw [hcs] at this
      rcases List.mem_cons.mp this with rfl | hmem1
      · exact hb1
      · exact hb2 t1 hmem1
    · omega
  · intro t1 heq
    have h1 : 0 < s t1 := by omega
    have hmem1 : t1 ∈ t :: ts := by
      have : t1 ∈ agentOrder.filter (fun u => 0 < s u) :=
        List.mem_filter.mpr ⟨mem_agentOrder t1, by simpa using h1⟩
      rw [hcs] at this
      exact this
    exact maxByFirst_tie s ts t hpw t1 hmem1 heq

/-- With every similarity non-positive, the strictly-greater test of the
semantic loop never fires and the accumulator survives untouched. -/
lemma semantic_foldl_no_update (sim : AgentType → Rat) (h : ∀ t, sim t ≤ 0) :
    ∀ (l : List AgentType) (acc : AgentType × Rat), 0 ≤ acc.2 →
      l.foldl (fun acc t => if acc.2 < sim t then (t, sim t) else acc) acc = acc := by
  intro l
  induction l with
  | nil => intro acc _; rfl
  | cons t rest ih =>
    intro acc hacc
    have hno : ¬ (acc.2 < sim t) := not_lt.mpr (le_trans (h t) hacc)
    simp only [List.foldl_cons, if_neg hno]
    exact ih acc hacc

/-- C8: confirmed.  For every query, whenever some category has a positive
keyword score, `_classify_query` returns a category of maximal keyword
score, and among equal-scoring categories the earliest in the fixed order
weather > crop > financial > policy (`agentOrder`); when no keyword matches
and every semantic similarity is non-positive it returns the default
category `crop`. -/
theorem C8_classifier :
    (∀ (query : String) (sim : AgentType → Rat) (t0 : AgentType),
        0 < keywordScore t0 (strLower query) →
        0 < keywordScore (classifyQuery query sim) (strLower query)
        ∧ (∀ t, keywordScore t (strLower query)
            ≤ keywordScore (classifyQuery query sim) (strLower query))
        ∧ (∀ t, keywordScore t (strLower query)
              = keywordScore (classifyQuery query sim) (strLower query) →
            agentIdx (classifyQuery query sim) ≤ agentIdx t))
    ∧ (∀ (query : String) (sim : AgentType → Rat),
        (∀ t, keywordScore t (strLower query) = 0) → (∀ t, sim t ≤ 0) →
        classifyQuery query sim = AgentType.crop) := by
  constructor
  · intro query sim t0 h0
    obtain ⟨r, hpick, hpos, hmax, htie⟩ :=
      keywordPick_spec (fun t => keywordScore t (strLower query)) t0 h0
    have hc : classifyQuery query sim = r := by
      unfold classifyQuery
      rw [hpick]
    rw [hc]
    exact ⟨hpos, hmax, htie⟩
  · intro query sim hz hsim
    have hfil : agentOrder.filter
        (fun t => 0 < keywordScore t (strLower query)) = [] := by
      rw [List.filter_eq_nil_iff]
      intro t ht
      simp [hz t]
    have hpick : keywordPick (fun t => keywordScore t (strLower query)) = none := by
      unfold keywordPick
      rw [hfil]
    unfold classifyQuery
    rw [hpick]
    unfold semanticFallback
    rw [semantic_foldl_no_update sim hsim agentOrder (AgentType.crop, 0) le_rfl]

/-- C8 witness: "rain loan" scores weather 1 and financial 1; the tie goes
to `weather` (first in the fixed order) and its score is maximal; "xyzzy"
matches no keyword and, with non-positive similarities, classifies as the
default `crop`. -/
theorem C8_witness :
    0 < keywordScore AgentType.weather (strLower "rain loan")
    ∧ keywordScore AgentType.financial (strLower "rain loan")
        ≤ keywordScore (classifyQuery "rain loan" (fun _ => 0)) (strLower "rain loan")
    ∧ classifyQuery "xyzzy" (fun _ => -1) = AgentType.crop :=
  ⟨by decide,
   (C8_classifier.1 "rain loan" (fun _ => 0) AgentType.weather (by decide)).2.1
     AgentType.financial,
   C8_classifier.2 "xyzzy" (fun _ => -1) (by decide) (by decide)⟩

end AgriBot
